import Mathlib

/-!
Verification development for the fitboxHelper repository: a relay bridging a
browser voice-capture client (Chrome extension, background.js) to the Gemini
Live streaming endpoint (server: index.js + gemini-session.js + knowledge.js).

The definitions below are a shallow embedding of the JavaScript source.
Conventions used throughout:
  - WebSocket sends, closes and console warnings become explicit effect values
    returned next to the updated state; console.log and console.error calls
    that carry no behaviour are not modelled.
  - Audio payloads are opaque: a Nat stands for the byte content of one chunk;
    the base64 re-encoding performed by the code does not change which frames
    are emitted, only their textual wrapping, so the payload identity is kept.
  - JavaScript truthiness on strings (empty string is falsy) is modelled
    explicitly wherever the source relies on it.
-/

/-! ## knowledge.js -/

/-- A JavaScript value as far as the knowledge-table lookup can observe one:
a string, a function (inherited methods such as constructor), a non-function
object (the inherited prototype object), or undefined. -/
inductive JSVal
  | vstr (s : String)
  | vfun
  | vobj
  | vundef
deriving DecidableEq, Repr

/-- Own entries of the fitboxKnowledge object literal in knowledge.js.
The single-quote characters that the source places around button captions
are omitted from the text. -/
def fitboxKnowledgeOwn (k : String) : Option String :=
  if k = "add_member" then
    some "To add a new member in fitbox, navigate to the Members section and click the Add New Member button. Fill in their details and save."
  else if k = "edit_member" then
    some "To edit a member, find them in the Members list, click the edit icon, make your changes, and save."
  else if k = "view_schedule" then
    some "Access the Schedule tab to see upcoming classes and appointments."
  else if k = "book_class" then
    some "To book a class, go to the Schedule, find the class you want, and click the Book Now button."
  else if k = "default" then
    some "I have general knowledge about the fitbox application. You can ask about managing members, schedules, classes, or settings."
  else if k = "initial" then
    some "Welcome to the fitbox AI helper. How can I assist you with fitbox today?"
  else none

/-- Property access on the object literal for keys it does not own: the
prototype chain of a plain object literal supplies Object.prototype members,
so these keys yield a function or an object instead of undefined. -/
def objectPrototypeLookup (k : String) : JSVal :=
  if k = "__proto__" then JSVal.vobj
  else if k = "constructor" ∨ k = "toString" ∨ k = "toLocaleString" ∨
      k = "valueOf" ∨ k = "hasOwnProperty" ∨ k = "isPrototypeOf" ∨
      k = "propertyIsEnumerable" then JSVal.vfun
  else JSVal.vundef

/-- Full JavaScript property access on the fitboxKnowledge object: own
entries first, then the prototype chain. -/
def fitboxKnowledgeGet (k : String) : JSVal :=
  match fitboxKnowledgeOwn k with
  | some s => JSVal.vstr s
  | none => objectPrototypeLookup k

/-- JavaScript truthiness of the values a lookup can produce. -/
def jsTruthy : JSVal → Bool
  | JSVal.vstr s => s != ""
  | JSVal.vfun => true
  | JSVal.vobj => true
  | JSVal.vundef => false

/-- The toLowerCase call applied to the screen identifier, as a map over
the characters of the string. -/
def jsToLower (s : String) : String :=
  String.mk (s.data.map Char.toLower)

/-- The whitespace characters the trim call removes. -/
def isJsWhitespace (c : Char) : Bool :=
  c = ' ' ∨ c = '\t' ∨ c = '\n' ∨ c = '\r'

/-- The trim call applied to the screen identifier: whitespace removed
from both ends. -/
def jsTrim (s : String) : String :=
  String.mk (((s.data.dropWhile isJsWhitespace).reverse.dropWhile isJsWhitespace).reverse)

/-- Outcome of calling getKnowledgeForScreen: either the function returns a
string, or it raises a TypeError because the looked-up value has no
substring method (the source calls context.substring before returning). -/
inductive LookupOutcome
  | returns (text : String)
  | throwsTypeError
deriving DecidableEq, Repr

/-- getKnowledgeForScreen from knowledge.js. The argument is an Option so
that a missing argument (undefined) can be passed; an empty string is falsy
in the source conditional, so both select the default key. After the lookup
and the fallback through the logical-or, the source calls
context.substring(0, 50) inside a log statement: when the looked-up value is
not a string this call raises a TypeError, which the outcome records. -/
def getKnowledgeForScreen (screen : Option String) : LookupOutcome :=
  let screenKey :=
    match screen with
    | some s => if s != "" then jsTrim (jsToLower s) else "default"
    | none => "default"
  let context :=
    if jsTruthy (fitboxKnowledgeGet screenKey) then fitboxKnowledgeGet screenKey
    else fitboxKnowledgeGet "default"
  match context with
  | JSVal.vstr s => LookupOutcome.returns s
  | _ => LookupOutcome.throwsTypeError

/-! ## gemini-session.js: session state and effects -/

/-- Readiness of a WebSocket transport, as observed through readyState. -/
inductive WsReady
  | connecting
  | opened
  | closing
  | closed
deriving DecidableEq, Repr

/-- State of one GeminiSession object: field for field from the class in
gemini-session.js. currentContext is assigned only by the context branch of
handleClientMessage, so it starts absent. -/
structure GSession where
  sessionId : Nat
  clientWsOpen : Bool
  geminiWs : Option WsReady
  initialContext : String
  isConnectedToGemini : Bool
  currentContext : Option String
deriving DecidableEq, Repr

/-- Frames the session sends to the upstream Gemini socket. -/
inductive UpFrame
  | setup
  | audioContent (payload : Nat)
deriving DecidableEq, Repr

/-- Structured frames the relay sends to the extension client. -/
inductive ClientFrame
  | aiReady (context : String)
  | serverContent (content : String)
  | errorFrame (message : String)
deriving DecidableEq, Repr

/-- Observable side effects of the server-side handlers: sends on either
leg, upstream socket lifecycle operations, and console warnings. -/
inductive RelayEffect
  | toClient (f : ClientFrame)
  | toUpstream (f : UpFrame)
  | closeUpstream (code : Nat)
  | upstreamConnect
  | warn (tag : String)
deriving DecidableEq, Repr

/-- Whether an effect is a send on the upstream leg. -/
def RelayEffect.isUpstreamSend : RelayEffect → Bool
  | RelayEffect.toUpstream _ => true
  | _ => false

/-- Host and key configuration read from process.env by the session. -/
structure EnvConfig where
  geminiApiHost : Option String
  geminiApiKey : Option String
deriving DecidableEq, Repr

/-- JavaScript truthiness of an environment variable: present and nonempty. -/
def envTruthy : Option String → Bool
  | some s => s != ""
  | none => false

/-- sendToClient from gemini-session.js: sends the stringified frame when
the client socket is open, otherwise only warns. -/
def sendToClient (s : GSession) (f : ClientFrame) : List RelayEffect :=
  if s.clientWsOpen then [RelayEffect.toClient f]
  else [RelayEffect.warn "Client WS not open, cannot send message"]

/-- sendErrorToClient from gemini-session.js. -/
def sendErrorToClient (s : GSession) (message : String) : List RelayEffect :=
  if s.clientWsOpen then [RelayEffect.toClient (ClientFrame.errorFrame message)]
  else [RelayEffect.warn "Client WS not open, cannot send error"]

/-- proxyMessageToClient from gemini-session.js, for the parsed-object case
the message handler uses. -/
def proxyMessageToClient (s : GSession) (f : ClientFrame) : List RelayEffect :=
  if s.clientWsOpen then [RelayEffect.toClient f]
  else [RelayEffect.warn "Client WS not open, cannot proxy message"]

/-- close from gemini-session.js: closes the upstream socket with code 1000
when a reference is still held, nulls the reference, clears the readiness
flag. The client socket is not touched (index.js owns it). -/
def GSession.close (s : GSession) : GSession × List RelayEffect :=
  match s.geminiWs with
  | some _ =>
      ({ s with geminiWs := none, isConnectedToGemini := false },
       [RelayEffect.closeUpstream 1000])
  | none => ({ s with isConnectedToGemini := false }, [])

/-- connectToGemini from gemini-session.js: the inner recheck of host and
key mirrors the source (it closes and returns when either is missing);
otherwise a new upstream WebSocket is created with its handlers attached. -/
def connectToGemini (env : EnvConfig) (s : GSession) : GSession × List RelayEffect :=
  if !envTruthy env.geminiApiHost || !envTruthy env.geminiApiKey then
    GSession.close s
  else
    ({ s with geminiWs := some WsReady.connecting }, [RelayEffect.upstreamConnect])

/-- The GeminiSession constructor. Initial fields as written in the source;
the initialContext parameter falls back through logical-or to the default
prompt. When host or key is missing the constructor sends a configuration
error to the client and closes without ever calling connectToGemini. -/
def mkGeminiSession (env : EnvConfig) (clientWsOpen : Bool)
    (initialContext : Option String) : GSession × List RelayEffect :=
  let s : GSession :=
    { sessionId := 0
      clientWsOpen := clientWsOpen
      geminiWs := none
      initialContext :=
        match initialContext with
        | some c => if c != "" then c else "You are a helpful voice assistant."
        | none => "You are a helpful voice assistant."
      isConnectedToGemini := false
      currentContext := none }
  if !envTruthy env.geminiApiHost || !envTruthy env.geminiApiKey then
    let e1 := sendErrorToClient s "Gemini API connection details are missing."
    let r := GSession.close s
    (r.1, e1 ++ r.2)
  else
    connectToGemini env s

/-! ## gemini-session.js: upstream event handlers -/

/-- Parsed shapes of frames arriving from the Gemini socket, matching the
branch structure of the message handler; malformed stands for data on which
JSON.parse failed. -/
inductive UpstreamMsg
  | setupComplete
  | serverContent (content : String)
  | toolCall
  | toolCallCancellation
  | errorMsg (message : Option String)
  | unknownShape
  | malformed
deriving DecidableEq, Repr

/-- Logical-or fallback on an optional string field, as the source writes
message.error.message with a default. -/
def messageOr (m : Option String) (d : String) : String :=
  match m with
  | some x => if x != "" then x else d
  | none => d

/-- The open handler of the upstream socket: the source sets
isConnectedToGemini to true here, sends the setup frame, and notifies the
client with ai_ready. The transport is OPEN once this event fires. -/
def onGeminiOpen (s : GSession) : GSession × List RelayEffect :=
  let s1 := { s with geminiWs := some WsReady.opened, isConnectedToGemini := true }
  (s1, [RelayEffect.toUpstream UpFrame.setup] ++
    sendToClient s1 (ClientFrame.aiReady s1.initialContext))

/-- The message handler of the upstream socket, branch for branch. The
setupComplete branch only invokes the queued-message placeholder, which the
source leaves as a log statement, so it has no effect and no state change. -/
def onGeminiMessage (s : GSession) (m : UpstreamMsg) : GSession × List RelayEffect :=
  match m with
  | UpstreamMsg.malformed =>
      (s, sendErrorToClient s "Received malformed data from AI service.")
  | UpstreamMsg.setupComplete => (s, [])
  | UpstreamMsg.serverContent c =>
      (s, proxyMessageToClient s (ClientFrame.serverContent c))
  | UpstreamMsg.toolCall => (s, [RelayEffect.warn "Received unhandled tool call"])
  | UpstreamMsg.toolCallCancellation =>
      (s, [RelayEffect.warn "Received unhandled tool call cancellation"])
  | UpstreamMsg.errorMsg msg =>
      (s, sendErrorToClient s ("AI service error: " ++ messageOr msg "Unknown error"))
  | UpstreamMsg.unknownShape =>
      (s, [RelayEffect.warn "Received unknown message structure from Gemini"])

/-! ## gemini-session.js: client-message handling -/

/-- Messages handed to handleClientMessage by index.js: a raw binary audio
buffer, a parsed JSON object carrying a type tag and an optional context
field, or a value of some other shape. -/
inductive ClientMsg
  | binary (payload : Nat)
  | jsonObj (ty : String) (ctxField : Option String)
  | otherKind
deriving DecidableEq, Repr

/-- Whether an optional transport is in the OPEN ready state. -/
def wsIsOpen : Option WsReady → Bool
  | some WsReady.opened => true
  | _ => false

/-- sendAudioToGemini from gemini-session.js: refuses with a warning unless
connected and the upstream socket is open, otherwise sends the chunk as a
base64 audio frame. -/
def sendAudioToGemini (s : GSession) (payload : Nat) : GSession × List RelayEffect :=
  if !s.isConnectedToGemini || !wsIsOpen s.geminiWs then
    (s, [RelayEffect.warn "Cannot send audio: Not connected to Gemini."])
  else
    (s, [RelayEffect.toUpstream (UpFrame.audioContent payload)])

/-- handleClientMessage from gemini-session.js: first classifies the message
kind (a JSON object with an empty type tag fails the truthiness test and
falls into the unexpected-type branch), then checks isConnectedToGemini,
then dispatches: the context branch records the context field, any other
JSON tag warns, binary goes to sendAudioToGemini. -/
def handleClientMessage (s : GSession) (m : ClientMsg) : GSession × List RelayEffect :=
  match m with
  | ClientMsg.binary payload =>
      if !s.isConnectedToGemini then
        (s, [RelayEffect.warn "Received client message but not connected to Gemini."])
      else
        sendAudioToGemini s payload
  | ClientMsg.jsonObj ty ctxField =>
      if ty == "" then
        (s, [RelayEffect.warn "Received message of unexpected type from client"])
      else if !s.isConnectedToGemini then
        (s, [RelayEffect.warn "Received client message but not connected to Gemini."])
      else if ty == "context" then
        ({ s with currentContext := ctxField }, [])
      else
        (s, [RelayEffect.warn "Received unknown JSON message type from client"])
  | ClientMsg.otherKind =>
      (s, [RelayEffect.warn "Received message of unexpected type from client"])

/-! ## Session event traces -/

/-- One asynchronous event delivered to a session: the upstream open event,
an upstream message, or a client message routed in by index.js. -/
inductive SessEvent
  | geminiOpen
  | geminiMsg (m : UpstreamMsg)
  | clientMsg (m : ClientMsg)
deriving DecidableEq, Repr

/-- Dispatch of one event to the corresponding session handler. -/
def stepSession (s : GSession) : SessEvent → GSession × List RelayEffect
  | SessEvent.geminiOpen => onGeminiOpen s
  | SessEvent.geminiMsg m => onGeminiMessage s m
  | SessEvent.clientMsg m => handleClientMessage s m

/-- Run a list of events through a session, concatenating the effects. -/
def runSessionEvents (s : GSession) : List SessEvent → GSession × List RelayEffect
  | [] => (s, [])
  | e :: es =>
      let r1 := stepSession s e
      let r2 := runSessionEvents r1.1 es
      (r2.1, r1.2 ++ r2.2)

/-! ## index.js: per-connection server state -/

/-- Per-client-connection state kept by index.js: the geminiSession slot,
initialised to null and filled only by the start_ai_session branch. -/
structure ConnState where
  geminiSession : Option GSession
deriving DecidableEq, Repr

/-- Text frames after JSON.parse in the index.js message handler:
start_ai_session, any other parsed object (its tag and context field), or
text on which JSON.parse threw. -/
inductive TextMsg
  | startAiSession
  | jsonOther (ty : String) (ctxField : Option String)
  | unparseable
deriving DecidableEq, Repr

/-- One frame on the client socket as index.js receives it: the isBinary
flag separates raw audio buffers from text. -/
inductive WireMsg
  | binary (payload : Nat)
  | text (t : TextMsg)
deriving DecidableEq, Repr

/-- The message handler installed by the connection handler in index.js.
Binary frames go to the session when one exists, otherwise only a warning
is logged. start_ai_session creates the session only when the slot is
empty, otherwise it warns and changes nothing. Other parsed objects are
forwarded to the session when one exists. Parse failures are logged. -/
def wsOnMessage (env : EnvConfig) (initialPrompt : String) (c : ConnState)
    (m : WireMsg) : ConnState × List RelayEffect :=
  match m with
  | WireMsg.binary payload =>
      match c.geminiSession with
      | some s =>
          let r := handleClientMessage s (ClientMsg.binary payload)
          ({ geminiSession := some r.1 }, r.2)
      | none => (c, [RelayEffect.warn "Received audio chunk for a non-existent session."])
  | WireMsg.text TextMsg.startAiSession =>
      match c.geminiSession with
      | none =>
          let r := mkGeminiSession env true (some initialPrompt)
          ({ geminiSession := some r.1 }, r.2)
      | some _ =>
          (c, [RelayEffect.warn "sent start_ai_session but session already exists."])
  | WireMsg.text (TextMsg.jsonOther ty ctxField) =>
      match c.geminiSession with
      | some s =>
          let r := handleClientMessage s (ClientMsg.jsonObj ty ctxField)
          ({ geminiSession := some r.1 }, r.2)
      | none =>
          (c, [RelayEffect.warn "sent message before AI session started or unknown message type. Ignoring."])
  | WireMsg.text TextMsg.unparseable =>
      (c, [RelayEffect.warn "Error parsing JSON message from client"])

/-- The close handler installed by index.js on the client socket: closes
the session when one exists and empties the slot. -/
def wsOnClose (c : ConnState) : ConnState × List RelayEffect :=
  match c.geminiSession with
  | some s => ({ geminiSession := none }, (GSession.close s).2)
  | none => ({ geminiSession := none }, [])

/-- The error handler installed by index.js on the client socket: same
cleanup as the close handler. -/
def wsOnError (c : ConnState) : ConnState × List RelayEffect :=
  match c.geminiSession with
  | some s => ({ geminiSession := none }, (GSession.close s).2)
  | none => (c, [])

/-- Process a list of frames on one connection, concatenating effects. -/
def processMsgs (env : EnvConfig) (initialPrompt : String) (c : ConnState) :
    List WireMsg → ConnState × List RelayEffect
  | [] => (c, [])
  | m :: ms =>
      let r1 := wsOnMessage env initialPrompt c m
      let r2 := processMsgs env initialPrompt r1.1 ms
      (r2.1, r1.2 ++ r2.2)

/-! ## background.js: extension-side connection supervisor -/

/-- The four lifecycle phases of the client-leg connection state. -/
inductive ConnPhase
  | disconnected
  | connecting
  | connected
  | errorState
deriving DecidableEq, Repr

/-- One WebSocket instance as the supervisor sees it: which of the four
handlers are attached, and whether readyState is OPEN. -/
structure WsInst where
  onopenAttached : Bool
  onmessageAttached : Bool
  onerrorAttached : Bool
  oncloseAttached : Bool
  readyOpen : Bool
deriving DecidableEq, Repr

/-- The module-level mutable state of background.js that the supervisor
reads and writes. -/
structure BgState where
  connectionState : ConnPhase
  retryTimeout : Option Nat
  currentRetryDelay : Nat
  connectionInitiatedByUser : Bool
  portConnected : Bool
  ws : Option WsInst
deriving DecidableEq, Repr

/-- Observable effects of the background handlers: popup notifications,
offscreen-port traffic, scheduled retries, transport closes, speech. -/
inductive BgEvent
  | popupStateUpdate (phase : ConnPhase)
  | popupError (message : String) (critical : Bool)
  | portStopAudio
  | closeOffscreen
  | retryScheduled (delayMs : Nat)
  | transportClose (code : Nat)
  | ttsSpeak (text : String)
deriving DecidableEq, Repr

/-- Whether an event is the scheduling of a reconnect timer. -/
def BgEvent.isRetryScheduled : BgEvent → Bool
  | BgEvent.retryScheduled _ => true
  | _ => false

/-- INITIAL_RETRY_DELAY from background.js, in milliseconds. -/
def INITIAL_RETRY_DELAY : Nat := 1000

/-- MAX_RETRY_DELAY from background.js, in milliseconds. -/
def MAX_RETRY_DELAY : Nat := 30000

/-- setConnectionState from background.js: records the phase, notifies the
popup, and applies the per-phase side effects: connected resets the backoff
delay and cancels any pending retry; disconnected and error push a
stop-capture message through the offscreen port when connected, cancel the
pending retry when the attempt was user-initiated or the new phase is
error, and close the offscreen document. -/
def setConnectionState (newState : ConnPhase) (s : BgState) : BgState × List BgEvent :=
  let s1 := { s with connectionState := newState }
  let evs := [BgEvent.popupStateUpdate newState]
  match newState with
  | ConnPhase.connected =>
      ({ s1 with currentRetryDelay := INITIAL_RETRY_DELAY, retryTimeout := none }, evs)
  | ConnPhase.disconnected =>
      let evs := evs ++ (if s1.portConnected then [BgEvent.portStopAudio] else [])
      let s2 := if s1.connectionInitiatedByUser then { s1 with retryTimeout := none } else s1
      (s2, evs ++ [BgEvent.closeOffscreen])
  | ConnPhase.errorState =>
      let evs := evs ++ (if s1.portConnected then [BgEvent.portStopAudio] else [])
      ({ s1 with retryTimeout := none }, evs ++ [BgEvent.closeOffscreen])
  | ConnPhase.connecting => (s1, evs)

/-- sendErrorToPopup from background.js: forces the error phase through
setConnectionState, then posts the error message to the popup. -/
def sendErrorToPopup (message : String) (critical : Bool) (s : BgState) :
    BgState × List BgEvent :=
  let r := setConnectionState ConnPhase.errorState s
  (r.1, r.2 ++ [BgEvent.popupError message critical])

/-- The terminal message the exhausted branch of scheduleReconnect posts. -/
def retriesExhaustedText : String :=
  "Connection failed after multiple retries. Please check the helper service."

/-- scheduleReconnect from background.js: a no-op when a retry is already
scheduled; cancels the cycle when the phase is disconnected; otherwise,
when the current delay is at most the ceiling, schedules a retry at the
current delay and doubles the delay clamped to the ceiling; in the
remaining case posts the retries-exhausted error and clears the
user-initiated flag. -/
def scheduleReconnect (s : BgState) : BgState × List BgEvent :=
  if s.retryTimeout.isSome then (s, [])
  else if s.connectionState = ConnPhase.disconnected then
    ({ s with connectionInitiatedByUser := false }, [])
  else if s.currentRetryDelay ≤ MAX_RETRY_DELAY then
    ({ s with
        retryTimeout := some s.currentRetryDelay,
        currentRetryDelay := min (s.currentRetryDelay * 2) MAX_RETRY_DELAY },
     [BgEvent.retryScheduled s.currentRetryDelay])
  else
    let r := sendErrorToPopup retriesExhaustedText true s
    ({ r.1 with connectionInitiatedByUser := false }, r.2)

/-- Detach all four event handlers of a WebSocket instance, as
closeWebSocket does by assigning null to each before calling close. -/
def detachAll (w : WsInst) : WsInst :=
  { w with onopenAttached := false, onmessageAttached := false,
           onerrorAttached := false, oncloseAttached := false }

/-- closeWebSocket from background.js: cancels the pending retry, resets
the backoff delay, clears the user-initiated flag when the disconnect is
manual, clears the global socket reference, detaches every handler on the
captured instance before closing it with code 1000, and, for a manual
disconnect from a non-disconnected phase, enters the disconnected phase.
The middle component of the result is the captured instance after the
handler detachment, so that later event dispatch on it can be examined. -/
def closeWebSocket (manualDisconnect : Bool) (s : BgState) :
    BgState × Option WsInst × List BgEvent :=
  let s1 := { s with retryTimeout := none, currentRetryDelay := INITIAL_RETRY_DELAY }
  let s2 := if manualDisconnect then { s1 with connectionInitiatedByUser := false } else s1
  let wsToClose := s2.ws
  let s3 := { s2 with ws := none }
  match wsToClose with
  | some w =>
      let closedInst := detachAll w
      let evs := [BgEvent.transportClose 1000]
      if manualDisconnect ∧ s3.connectionState ≠ ConnPhase.disconnected then
        let r := setConnectionState ConnPhase.disconnected s3
        (r.1, some closedInst, evs ++ r.2)
      else (s3, some closedInst, evs)
  | none =>
      if manualDisconnect ∧ s3.connectionState ≠ ConnPhase.disconnected then
        let r := setConnectionState ConnPhase.disconnected s3
        (r.1, none, r.2)
      else (s3, none, [])

/-- The onclose handler connectWebSocket installs on the client-leg socket:
captures and clears the global reference; when the phase is not
disconnected it reports the lost connection (entering the error phase) and,
when the attempt was user-initiated, schedules a reconnect. -/
def wsOnCloseHandler (s : BgState) : BgState × List BgEvent :=
  let oldWsSome := s.ws.isSome
  let s1 := { s with ws := none }
  if oldWsSome ∧ s1.connectionState ≠ ConnPhase.disconnected then
    let r2 := sendErrorToPopup "Connection lost" true s1
    if r2.1.connectionInitiatedByUser then
      let r3 := scheduleReconnect r2.1
      (r3.1, r2.2 ++ r3.2)
    else r2
  else (s1, [])

/-- Dispatch of a close event on a WebSocket instance: the handler body
runs only while the onclose handler is attached. -/
def dispatchCloseEvent (s : BgState) (w : WsInst) : BgState × List BgEvent :=
  if w.oncloseAttached then wsOnCloseHandler s else (s, [])

/-- A freshly constructed WebSocket with all four handlers attached and the
transport not yet open. -/
def freshWsInst : WsInst :=
  { onopenAttached := true, onmessageAttached := true,
    onerrorAttached := true, oncloseAttached := true, readyOpen := false }

/-- The tail of connectWebSocket once the early returns are passed: enter
the connecting phase and create the socket with its handlers attached. The
tab-context query that precedes this in the source only assigns the screen
label, which the supervisor state does not track. -/
def startAttempt (s : BgState) : BgState × List BgEvent :=
  let r := setConnectionState ConnPhase.connecting s
  ({ r.1 with ws := some freshWsInst }, r.2)

/-- connectWebSocket from background.js: re-notifies when the socket is
already open, returns when a connection attempt is already in progress,
otherwise starts a fresh attempt. -/
def connectWebSocketStart (s : BgState) : BgState × List BgEvent :=
  match s.ws with
  | some w =>
      if w.readyOpen then setConnectionState ConnPhase.connected s
      else if s.connectionState = ConnPhase.connecting then (s, [])
      else startAttempt s
  | none =>
      if s.connectionState = ConnPhase.connecting then (s, [])
      else startAttempt s

/-- Firing of the scheduled retry timer: the callback clears the timer
handle and reconnects unless the phase has already reached connected or
connecting. -/
def retryTimerFires (s : BgState) : BgState × List BgEvent :=
  let s1 := { s with retryTimeout := none }
  if s1.connectionState ≠ ConnPhase.connected ∧ s1.connectionState ≠ ConnPhase.connecting then
    connectWebSocketStart s1
  else (s1, [])

/-- The module-level initial values of the background state. -/
def freshBgState : BgState :=
  { connectionState := ConnPhase.disconnected, retryTimeout := none,
    currentRetryDelay := INITIAL_RETRY_DELAY,
    connectionInitiatedByUser := false, portConnected := false, ws := none }

/-- The initiateConnection case of the popup message listener: when a
connection is active or pending it only re-sends the state, otherwise it
marks the attempt user-initiated and starts connecting. -/
def initiateConnection (s : BgState) : BgState × List BgEvent :=
  if s.connectionState = ConnPhase.connected ∨ s.connectionState = ConnPhase.connecting then
    setConnectionState s.connectionState s
  else
    connectWebSocketStart { s with connectionInitiatedByUser := true }

/-- One client-leg failure cycle: the close event of the failed attempt
fires (reporting the error and scheduling the retry), then the retry timer
fires and begins the next attempt. -/
def failureCycle (s : BgState) : BgState × List BgEvent :=
  let r1 := wsOnCloseHandler s
  let r2 := retryTimerFires r1.1
  (r2.1, r1.2 ++ r2.2)

/-- A run of n consecutive connection failures after a user-initiated
start from the initial background state. -/
def failureRun : Nat → BgState × List BgEvent
  | 0 => initiateConnection freshBgState
  | n + 1 =>
      let r := failureRun n
      let r1 := failureCycle r.1
      (r1.1, r.2 ++ r1.2)

/-- The retry delays scheduled during a run of n consecutive failures, in
order of scheduling. -/
def scheduledDelays (n : Nat) : List Nat :=
  (failureRun n).2.filterMap (fun e =>
    match e with
    | BgEvent.retryScheduled d => some d
    | _ => none)

/-! ## background.js: server-message handling and the error cascade -/

/-- Parsed shapes of server frames as the switch in handleServerMessage
distinguishes them; invalidShape stands for a parsed value that is not an
object with a string type tag. -/
inductive ServerMsg
  | tts (text : Option String)
  | audioResponse
  | statusMsg (message : Option String)
  | errorMsg (message : Option String) (errorField : Option String)
  | aiReady
  | unknownType (ty : String)
  | invalidShape
deriving DecidableEq, Repr

/-- Logical-or fallback on an optional string, as the error case computes
message.message or message.error or the default text. -/
def orElseStr (a : Option String) (d : String) : String :=
  match a with
  | some x => if x != "" then x else d
  | none => d

/-- handleServerMessage from background.js, case for case. Only the error
case changes the supervisor state: it reports the error to the popup
(entering the error phase), re-enters the error phase, and closes the
socket non-manually; the middle component carries the detached instance
that close produced. The tts case speaks the text; status, ai_ready,
audio_response and unknown tags only log. -/
def handleServerMessage (s : BgState) (m : ServerMsg) :
    BgState × Option WsInst × List BgEvent :=
  match m with
  | ServerMsg.tts t =>
      match t with
      | some txt => (s, none, [BgEvent.ttsSpeak txt])
      | none => (s, none, [])
  | ServerMsg.audioResponse => (s, none, [])
  | ServerMsg.statusMsg _ => (s, none, [])
  | ServerMsg.errorMsg msg errField =>
      let errorText := orElseStr msg (orElseStr errField "Unknown server error")
      let r1 := sendErrorToPopup ("Server error: " ++ errorText) true s
      let r2 := setConnectionState ConnPhase.errorState r1.1
      let r3 := closeWebSocket false r2.1
      (r3.1, r3.2.1, r1.2 ++ r2.2 ++ r3.2.2)
  | ServerMsg.aiReady => (s, none, [])
  | ServerMsg.unknownType _ => (s, none, [])
  | ServerMsg.invalidShape => (s, none, [])

/-- How the extension parses a structured relay frame back into the tagged
shape its switch dispatches on: an error frame carries its message in the
message property, ai_ready matches the ai_ready case, and serverContent has
no case in the switch, so it lands on the default branch. -/
def frameToServerMsg : ClientFrame → ServerMsg
  | ClientFrame.errorFrame m => ServerMsg.errorMsg (some m) none
  | ClientFrame.aiReady _ => ServerMsg.aiReady
  | ClientFrame.serverContent _ => ServerMsg.unknownType "serverContent"

/-- The first frame an effect list sends to the client, when any. -/
def firstToClientFrame (effs : List RelayEffect) : Option ClientFrame :=
  effs.findSome? (fun e =>
    match e with
    | RelayEffect.toClient f => some f
    | _ => none)

/-- Joint result of the upstream-error cascade: the relay connection state,
the extension state, and the effects of both sides. -/
structure CascadeResult where
  conn : ConnState
  bg : BgState
  relayEffects : List RelayEffect
  bgEvents : List BgEvent
deriving Repr

/-- The event cascade that an explicit error frame from the upstream
service triggers, in delivery order: the session message handler runs the
error branch and sends the client an error frame; the extension handles
that frame (its error case closes the client socket without scheduling a
retry); the relay then sees the client socket close and its close handler
tears the session down and empties the registry slot. When no frame
reaches the client (client socket not open) the cascade ends after the
first step. -/
def upstreamErrorCascade (sess : GSession) (bg : BgState) (errField : Option String) :
    CascadeResult :=
  let r1 := onGeminiMessage sess (UpstreamMsg.errorMsg errField)
  match firstToClientFrame r1.2 with
  | some f =>
      let r2 := handleServerMessage bg (frameToServerMsg f)
      let r3 := wsOnClose { geminiSession := some r1.1 }
      { conn := r3.1, bg := r2.1, relayEffects := r1.2 ++ r3.2, bgEvents := r2.2.2 }
  | none =>
      { conn := { geminiSession := some r1.1 }, bg := bg,
        relayEffects := r1.2, bgEvents := [] }

/-! ## Sample states used by witnesses -/

/-- A configuration with both host and key present. -/
def goodEnv : EnvConfig :=
  { geminiApiHost := some "wss://generativelanguage.googleapis.com",
    geminiApiKey := some "k" }

/-- A configuration with the host missing. -/
def hostlessEnv : EnvConfig :=
  { geminiApiHost := none, geminiApiKey := some "k" }

/-- A session whose upstream leg is open and ready. -/
def readySession : GSession :=
  { sessionId := 0, clientWsOpen := true, geminiWs := some WsReady.opened,
    initialContext := "You are a helpful voice assistant.",
    isConnectedToGemini := true, currentContext := none }

/-- A background state in the connected phase with an open socket. -/
def connectedBgState : BgState :=
  { connectionState := ConnPhase.connected, retryTimeout := none,
    currentRetryDelay := INITIAL_RETRY_DELAY,
    connectionInitiatedByUser := true, portConnected := true,
    ws := some { onopenAttached := true, onmessageAttached := true,
                 onerrorAttached := true, oncloseAttached := true,
                 readyOpen := true } }

/-- The supervisor state reached after every completed failure cycle:
connecting phase, no pending timer, user-initiated flag set, a fresh socket
attached, current delay d. -/
def invBgState (d : Nat) : BgState :=
  { connectionState := ConnPhase.connecting, retryTimeout := none,
    currentRetryDelay := d, connectionInitiatedByUser := true,
    portConnected := false, ws := some freshWsInst }

/-! ## Helper lemmas -/

/-- Doubling a delay already clamped to the ceiling and clamping again is
the same as clamping the doubled raw delay. -/
theorem clamp_double (a : Nat) : min (min a 30000 * 2) 30000 = min (a * 2) 30000 := by
  omega

/-- One failure cycle from the invariant state schedules a retry at the
current delay and returns to the invariant state with the doubled, clamped
delay. -/
theorem failureCycle_inv (d : Nat) (hd : d ≤ 30000) :
    failureCycle (invBgState d) =
      (invBgState (min (d * 2) 30000),
       [BgEvent.popupStateUpdate ConnPhase.errorState, BgEvent.closeOffscreen,
        BgEvent.popupError "Connection lost" true,
        BgEvent.retryScheduled d,
        BgEvent.popupStateUpdate ConnPhase.connecting]) := by
  simp [failureCycle, wsOnCloseHandler, sendErrorToPopup, setConnectionState,
        scheduleReconnect, retryTimerFires, connectWebSocketStart, startAttempt,
        invBgState, freshWsInst, MAX_RETRY_DELAY, hd]

/-- Closed description of a run of n consecutive failures: the state after
the run, the scheduled delays, and the absence of the terminal
retries-exhausted notification. -/
theorem failureRun_spec (n : Nat) :
    (failureRun n).1 = invBgState (min (1000 * 2 ^ n) 30000) ∧
    scheduledDelays n = (List.range n).map (fun k => min (1000 * 2 ^ k) 30000) ∧
    BgEvent.popupError retriesExhaustedText true ∉ (failureRun n).2 := by
  induction n with
  | zero =>
      refine ⟨?_, ?_, ?_⟩ <;> decide
  | succ n ih =>
      obtain ⟨hstate, hdelays, hnoterm⟩ := ih
      have hle : min (1000 * 2 ^ n) 30000 ≤ 30000 := Nat.min_le_right _ _
      have hcycle := failureCycle_inv (min (1000 * 2 ^ n) 30000) hle
      have hrun : failureRun (n + 1) =
          ((failureCycle (failureRun n).1).1,
           (failureRun n).2 ++ (failureCycle (failureRun n).1).2) := rfl
      have hpow : min (min (1000 * 2 ^ n) 30000 * 2) 30000 = min (1000 * 2 ^ (n + 1)) 30000 := by
        rw [clamp_double]
        congr 1
        ring
      refine ⟨?_, ?_, ?_⟩
      · rw [hrun, hstate, hcycle]
        simp [hpow]
      · have : scheduledDelays (n + 1) =
            scheduledDelays n ++ [min (1000 * 2 ^ n) 30000] := by
          rw [scheduledDelays, hrun, hstate, hcycle, List.filterMap_append]
          rfl
        rw [this, hdelays, List.range_succ]
        simp
      · rw [hrun, hstate, hcycle]
        intro hmem
        rcases List.mem_append.mp hmem with hmem | hmem
        · exact hnoterm hmem
        · simp only [List.mem_cons, List.not_mem_nil, or_false] at hmem
          rcases hmem with h | h | h | h | h
          · exact BgEvent.noConfusion h
          · exact BgEvent.noConfusion h
          · have hs : retriesExhaustedText = "Connection lost" := by
              injection h
            exact absurd hs (by decide)
          · exact BgEvent.noConfusion h
          · exact BgEvent.noConfusion h

/-- Every effect list setConnectionState produces is free of retry
scheduling. -/
theorem setConnectionState_no_retry (ph : ConnPhase) (s : BgState) :
    ((setConnectionState ph s).2.all (fun e => !e.isRetryScheduled)) = true := by
  cases ph <;> cases hp : s.portConnected <;>
    simp [setConnectionState, BgEvent.isRetryScheduled, hp]

/-- sendErrorToPopup never schedules a retry. -/
theorem sendErrorToPopup_no_retry (m : String) (c : Bool) (s : BgState) :
    ((sendErrorToPopup m c s).2.all (fun e => !e.isRetryScheduled)) = true := by
  have h := setConnectionState_no_retry ConnPhase.errorState s
  simp [sendErrorToPopup, BgEvent.isRetryScheduled, List.all_append] at h ⊢
  exact h

/-- closeWebSocket never schedules a retry. -/
theorem closeWebSocket_no_retry (b : Bool) (s : BgState) :
    ((closeWebSocket b s).2.2.all (fun e => !e.isRetryScheduled)) = true := by
  obtain ⟨cs, rt, d, flag, port, ws⟩ := s
  cases b <;> cases ws <;> cases cs <;> cases flag <;> cases port <;>
    simp [closeWebSocket, setConnectionState, BgEvent.isRetryScheduled]

/-- closeWebSocket always leaves the pending-retry timer empty. -/
theorem closeWebSocket_retryTimeout (b : Bool) (s : BgState) :
    (closeWebSocket b s).1.retryTimeout = none := by
  obtain ⟨cs, rt, d, flag, port, ws⟩ := s
  cases b <;> cases ws <;> cases cs <;> cases flag <;> cases port <;>
    simp [closeWebSocket, setConnectionState]

/-- On a connection whose slot already holds a session, a further
start_ai_session frame only warns and changes nothing. -/
theorem wsOnMessage_start_noop (env : EnvConfig) (prompt : String) (c : ConnState)
    (h : c.geminiSession.isSome = true) :
    wsOnMessage env prompt c (WireMsg.text TextMsg.startAiSession) =
      (c, [RelayEffect.warn "sent start_ai_session but session already exists."]) := by
  cases hc : c.geminiSession with
  | none => rw [hc] at h; simp at h
  | some s => cases c; simp_all [wsOnMessage]

/-- Replicated start_ai_session frames on a connection that already holds a
session contribute one warning each and leave the state untouched. -/
theorem processMsgs_start_noops (env : EnvConfig) (prompt : String) (c : ConnState)
    (h : c.geminiSession.isSome = true) (n : Nat) :
    processMsgs env prompt c (List.replicate n (WireMsg.text TextMsg.startAiSession)) =
      (c, List.replicate n (RelayEffect.warn "sent start_ai_session but session already exists.")) := by
  induction n with
  | zero => rfl
  | succ n ih =>
      rw [List.replicate_succ]
      show (let r1 := wsOnMessage env prompt c (WireMsg.text TextMsg.startAiSession)
            let r2 := processMsgs env prompt r1.1
              (List.replicate n (WireMsg.text TextMsg.startAiSession))
            (r2.1, r1.2 ++ r2.2)) = _
      rw [wsOnMessage_start_noop env prompt c h]
      simp [ih, List.replicate_succ]

/-- The error case of handleServerMessage never schedules a retry and
leaves no pending retry timer. -/
theorem handleServerMessage_error_safe (s : BgState) (a b : Option String) :
    ((handleServerMessage s (ServerMsg.errorMsg a b)).2.2.all
        (fun e => !e.isRetryScheduled)) = true ∧
    (handleServerMessage s (ServerMsg.errorMsg a b)).1.retryTimeout = none := by
  constructor
  · dsimp only [handleServerMessage]
    rw [List.all_append, List.all_append, Bool.and_eq_true, Bool.and_eq_true]
    exact ⟨⟨sendErrorToPopup_no_retry _ _ _, setConnectionState_no_retry _ _⟩,
           closeWebSocket_no_retry _ _⟩
  · exact closeWebSocket_retryTimeout false _

/-! ## Claim theorems -/

/-- C1 (amended): starting from the initial delay of 1000 ms with ceiling
30000 ms, the nth scheduled retry delay of a run of consecutive client-leg
connection failures equals min(1000 times 2 to the (n-1), 30000); and the
retry cycle never terminates with the retries-exhausted notification: the
delay is clamped to the ceiling before the exhaustion comparison, so
scheduleReconnect keeps scheduling retries at the ceiling indefinitely. -/
theorem backoff_delay_formula_and_retry_never_exhausts (n : Nat) :
    scheduledDelays n = (List.range n).map (fun k => min (1000 * 2 ^ k) 30000) ∧
    BgEvent.popupError retriesExhaustedText true ∉ (failureRun n).2 :=
  ⟨(failureRun_spec n).2.1, (failureRun_spec n).2.2⟩

/-- C1 (counterexample): after five failures the computed sixth delay,
1000 times 2 to the 5th, exceeds the 30000 ms ceiling, yet the sixth
failure still schedules a retry (at 30000 ms); no retries-exhausted
notification is surfaced and the user-initiated flag stays set, contrary
to the claim that the cycle then stops. -/
theorem sixth_failure_schedules_retry_instead_of_terminal_notice :
    30000 < 1000 * 2 ^ (6 - 1) ∧
    scheduledDelays 6 = [1000, 2000, 4000, 8000, 16000, 30000] ∧
    BgEvent.popupError retriesExhaustedText true ∉ (failureRun 6).2 ∧
    (failureRun 6).1.connectionInitiatedByUser = true := by
  decide

/-- C2 (confirmed): on one client connection, only the first
start_ai_session message creates a GeminiSession and stores it in the
geminiSession slot; every later start_ai_session on the same connection
leaves the state exactly as it was and contributes one warning, so at
most one session exists per connection. -/
theorem only_first_start_session_creates (env : EnvConfig) (prompt : String) (n : Nat) :
    (wsOnMessage env prompt { geminiSession := none }
        (WireMsg.text TextMsg.startAiSession)).1.geminiSession =
      some (mkGeminiSession env true (some prompt)).1 ∧
    processMsgs env prompt { geminiSession := none }
        (List.replicate (n + 1) (WireMsg.text TextMsg.startAiSession)) =
      ((wsOnMessage env prompt { geminiSession := none }
          (WireMsg.text TextMsg.startAiSession)).1,
       (wsOnMessage env prompt { geminiSession := none }
          (WireMsg.text TextMsg.startAiSession)).2 ++
         List.replicate n
           (RelayEffect.warn "sent start_ai_session but session already exists.")) := by
  constructor
  · rfl
  · rw [List.replicate_succ]
    rw [show processMsgs env prompt { geminiSession := none }
          (WireMsg.text TextMsg.startAiSession ::
            List.replicate n (WireMsg.text TextMsg.startAiSession)) =
        ((processMsgs env prompt
            (wsOnMessage env prompt { geminiSession := none }
              (WireMsg.text TextMsg.startAiSession)).1
            (List.replicate n (WireMsg.text TextMsg.startAiSession))).1,
         (wsOnMessage env prompt { geminiSession := none }
            (WireMsg.text TextMsg.startAiSession)).2 ++
         (processMsgs env prompt
            (wsOnMessage env prompt { geminiSession := none }
              (WireMsg.text TextMsg.startAiSession)).1
            (List.replicate n (WireMsg.text TextMsg.startAiSession))).2) from rfl]
    rw [processMsgs_start_noops env prompt
      (wsOnMessage env prompt { geminiSession := none }
        (WireMsg.text TextMsg.startAiSession)).1 rfl n]

/-- C3 (code bug): in the event trace in which the upstream socket opens
and then a client audio frame arrives, no setupComplete frame has been
received from upstream, yet the session forwards the audio frame upstream:
the open handler already set isConnectedToGemini, which is the only gate
handleClientMessage checks, so the frame is neither dropped nor buffered. -/
theorem audio_forwarded_before_setup_complete :
    SessEvent.geminiMsg UpstreamMsg.setupComplete ∉
        [SessEvent.geminiOpen, SessEvent.clientMsg (ClientMsg.binary 7)] ∧
    RelayEffect.toUpstream (UpFrame.audioContent 7) ∈
      (runSessionEvents (mkGeminiSession goodEnv true none).1
        [SessEvent.geminiOpen, SessEvent.clientMsg (ClientMsg.binary 7)]).2 := by
  decide

/-- C4 (confirmed): when the upstream service sends a frame with an error
field to a session whose client socket is open, the client receives a
structured error frame with a human-readable message; the extension reacts
by closing its socket without scheduling any retry and with no pending
retry timer, the relay then tears the session down and empties the
registry slot, and a binary frame arriving on the connection afterwards
produces no upstream traffic until a new session is requested. -/
theorem upstream_error_closes_session_without_retry
    (sess : GSession) (bg : BgState) (errField : Option String)
    (env : EnvConfig) (prompt : String) (payload : Nat)
    (h : sess.clientWsOpen = true) :
    RelayEffect.toClient (ClientFrame.errorFrame
        ("AI service error: " ++ messageOr errField "Unknown error")) ∈
      (upstreamErrorCascade sess bg errField).relayEffects ∧
    (upstreamErrorCascade sess bg errField).conn.geminiSession = none ∧
    (upstreamErrorCascade sess bg errField).bg.retryTimeout = none ∧
    ((upstreamErrorCascade sess bg errField).bgEvents.all
        (fun e => !e.isRetryScheduled)) = true ∧
    ((wsOnMessage env prompt (upstreamErrorCascade sess bg errField).conn
        (WireMsg.binary payload)).2.all (fun e => !e.isUpstreamSend)) = true := by
  have hmsg : onGeminiMessage sess (UpstreamMsg.errorMsg errField) =
      (sess, [RelayEffect.toClient (ClientFrame.errorFrame
        ("AI service error: " ++ messageOr errField "Unknown error"))]) := by
    simp [onGeminiMessage, sendErrorToClient, h]
  have hcasc : upstreamErrorCascade sess bg errField =
      { conn := (wsOnClose { geminiSession := some sess }).1,
        bg := (handleServerMessage bg (ServerMsg.errorMsg
          (some ("AI service error: " ++ messageOr errField "Unknown error")) none)).1,
        relayEffects := [RelayEffect.toClient (ClientFrame.errorFrame
          ("AI service error: " ++ messageOr errField "Unknown error"))] ++
            (wsOnClose { geminiSession := some sess }).2,
        bgEvents := (handleServerMessage bg (ServerMsg.errorMsg
          (some ("AI service error: " ++ messageOr errField "Unknown error")) none)).2.2 } := by
    rw [upstreamErrorCascade, hmsg]
    rfl
  rw [hcasc]
  refine ⟨List.mem_append_left _ (List.mem_singleton.mpr rfl), rfl,
    (handleServerMessage_error_safe bg _ none).2,
    (handleServerMessage_error_safe bg _ none).1, ?_⟩
  rfl

/-- C4 (witness): the cascade evaluated for a ready session, a connected
extension state and an anonymous upstream error object. -/
theorem upstream_error_cascade_witness :
    readySession.clientWsOpen = true ∧
    (RelayEffect.toClient (ClientFrame.errorFrame
        ("AI service error: " ++ messageOr none "Unknown error")) ∈
      (upstreamErrorCascade readySession connectedBgState none).relayEffects ∧
    (upstreamErrorCascade readySession connectedBgState none).conn.geminiSession = none ∧
    (upstreamErrorCascade readySession connectedBgState none).bg.retryTimeout = none ∧
    ((upstreamErrorCascade readySession connectedBgState none).bgEvents.all
        (fun e => !e.isRetryScheduled)) = true ∧
    ((wsOnMessage goodEnv "p" (upstreamErrorCascade readySession connectedBgState none).conn
        (WireMsg.binary 3)).2.all (fun e => !e.isUpstreamSend)) = true) :=
  ⟨rfl, upstream_error_closes_session_without_retry
    readySession connectedBgState none goodEnv "p" 3 rfl⟩

/-- C5 (confirmed): closeWebSocket with manualDisconnect true leaves no
pending retry timer, clears the user-initiated flag, resets the backoff
delay to its initial value, clears the socket reference, and detaches all
four handlers on the closing transport, so a close event dispatched on
that transport afterwards runs no handler and schedules nothing. -/
theorem manual_stop_suppresses_retry (s : BgState) :
    (closeWebSocket true s).1.retryTimeout = none ∧
    (closeWebSocket true s).1.connectionInitiatedByUser = false ∧
    (closeWebSocket true s).1.currentRetryDelay = INITIAL_RETRY_DELAY ∧
    (closeWebSocket true s).1.ws = none ∧
    ∀ w, (closeWebSocket true s).2.1 = some w →
      w.onopenAttached = false ∧ w.onmessageAttached = false ∧
      w.onerrorAttached = false ∧ w.oncloseAttached = false ∧
      dispatchCloseEvent (closeWebSocket true s).1 w = ((closeWebSocket true s).1, []) := by
  obtain ⟨cs, rt, d, flag, port, ws⟩ := s
  cases ws <;> cases cs <;> cases flag <;> cases port <;>
    simp [closeWebSocket, setConnectionState, detachAll, dispatchCloseEvent]

/-- C5 (witness): the manual-stop properties evaluated on a connected
state with an open socket and prior failures recorded. -/
theorem manual_stop_suppresses_retry_witness :
    (closeWebSocket true connectedBgState).1.retryTimeout = none ∧
    (closeWebSocket true connectedBgState).1.connectionInitiatedByUser = false ∧
    (closeWebSocket true connectedBgState).1.currentRetryDelay = INITIAL_RETRY_DELAY ∧
    (closeWebSocket true connectedBgState).1.ws = none ∧
    ∀ w, (closeWebSocket true connectedBgState).2.1 = some w →
      w.onopenAttached = false ∧ w.onmessageAttached = false ∧
      w.onerrorAttached = false ∧ w.oncloseAttached = false ∧
      dispatchCloseEvent (closeWebSocket true connectedBgState).1 w =
        ((closeWebSocket true connectedBgState).1, []) :=
  manual_stop_suppresses_retry connectedBgState

/-- C6 (confirmed): when the host or the key is missing from the
environment, the GeminiSession constructor sends the client exactly one
structured configuration-error frame and closes itself: no upstream
connect is ever attempted (geminiWs stays null, the readiness flag stays
false, and no upstreamConnect effect occurs); the construction is a total
function, so the relay keeps serving: a start_ai_session on a fresh
connection still fills the session slot rather than crashing. -/
theorem missing_config_is_fatal_to_session_only (env : EnvConfig) (ctx : Option String)
    (h : envTruthy env.geminiApiHost = false ∨ envTruthy env.geminiApiKey = false) :
    (mkGeminiSession env true ctx).2 =
      [RelayEffect.toClient
        (ClientFrame.errorFrame "Gemini API connection details are missing.")] ∧
    (mkGeminiSession env true ctx).1.geminiWs = none ∧
    (mkGeminiSession env true ctx).1.isConnectedToGemini = false ∧
    RelayEffect.upstreamConnect ∉ (mkGeminiSession env true ctx).2 ∧
    (wsOnMessage env "" { geminiSession := none }
        (WireMsg.text TextMsg.startAiSession)).1.geminiSession.isSome = true := by
  rcases h with h | h <;>
    simp [mkGeminiSession, sendErrorToClient, GSession.close, connectToGemini,
      wsOnMessage, h]

/-- C6 (witness): the constructor evaluated with the host variable
absent. -/
theorem missing_config_witness :
    (envTruthy hostlessEnv.geminiApiHost = false ∨
      envTruthy hostlessEnv.geminiApiKey = false) ∧
    ((mkGeminiSession hostlessEnv true none).2 =
      [RelayEffect.toClient
        (ClientFrame.errorFrame "Gemini API connection details are missing.")] ∧
    (mkGeminiSession hostlessEnv true none).1.geminiWs = none ∧
    (mkGeminiSession hostlessEnv true none).1.isConnectedToGemini = false ∧
    RelayEffect.upstreamConnect ∉ (mkGeminiSession hostlessEnv true none).2 ∧
    (wsOnMessage hostlessEnv "" { geminiSession := none }
        (WireMsg.text TextMsg.startAiSession)).1.geminiSession.isSome = true) :=
  ⟨Or.inl rfl, missing_config_is_fatal_to_session_only hostlessEnv none (Or.inl rfl)⟩

/-- C7 (confirmed): session teardown is idempotent: after any close call
the upstream reference is null and the readiness flag false; a second
close call on the result changes nothing and performs no operation on the
already-released transport; and the racing pair of index.js close handlers
behaves the same at the connection level: a second cleanup emits no
transport operation and the slot stays empty. -/
theorem session_close_idempotent (s : GSession) :
    (GSession.close s).1.geminiWs = none ∧
    (GSession.close s).1.isConnectedToGemini = false ∧
    GSession.close (GSession.close s).1 = ((GSession.close s).1, []) ∧
    ∀ c : ConnState, (wsOnClose (wsOnClose c).1).2 = [] ∧
      (wsOnClose (wsOnClose c).1).1.geminiSession = none := by
  refine ⟨?_, ?_, ?_, ?_⟩
  · cases hws : s.geminiWs <;> simp [GSession.close, hws]
  · cases hws : s.geminiWs <;> simp [GSession.close, hws]
  · cases hws : s.geminiWs <;> simp [GSession.close, hws]
  · intro c
    cases hc : c.geminiSession <;> simp [wsOnClose, hc]

/-- C8 (code bug): getKnowledgeForScreen is not total on arbitrary
strings: for the inputs constructor and proto the property lookup reaches
an inherited Object.prototype member, which is truthy and therefore
bypasses the default fallback, and the subsequent substring call throws a
TypeError; an unknown ordinary identifier does return the fallback default
text. -/
theorem knowledge_lookup_throws_on_prototype_keys :
    getKnowledgeForScreen (some "constructor") = LookupOutcome.throwsTypeError ∧
    getKnowledgeForScreen (some "__proto__") = LookupOutcome.throwsTypeError ∧
    getKnowledgeForScreen (some " Unknown_Screen ") =
      LookupOutcome.returns "I have general knowledge about the fitbox application. You can ask about managing members, schedules, classes, or settings." := by
  decide

/-- C9 (confirmed): for a session whose readiness check has passed, a
context frame with context string ctx sets only currentContext: the
result state is the input state with currentContext replaced, and the
effect list is empty, so nothing is sent upstream or to the client. -/
theorem context_frame_updates_only_current_context (s : GSession) (ctx : String)
    (h : s.isConnectedToGemini = true) :
    handleClientMessage s (ClientMsg.jsonObj "context" (some ctx)) =
      ({ s with currentContext := some ctx }, []) := by
  simp [handleClientMessage, h]

/-- C9 (witness): the context update evaluated on a ready session. -/
theorem context_frame_update_witness :
    readySession.isConnectedToGemini = true ∧
    handleClientMessage readySession (ClientMsg.jsonObj "context" (some "view_schedule")) =
      ({ readySession with currentContext := some "view_schedule" }, []) :=
  ⟨rfl, context_frame_updates_only_current_context readySession "view_schedule" rfl⟩

/-- C10 (confirmed): a binary audio frame arriving on a connection whose
session slot is still empty is dropped with exactly one warning: the state
is unchanged (the slot stays empty) and no frame is sent upstream or back
to the client. -/
theorem binary_before_session_only_warns (env : EnvConfig) (prompt : String)
    (payload : Nat) :
    wsOnMessage env prompt { geminiSession := none } (WireMsg.binary payload) =
      ({ geminiSession := none },
       [RelayEffect.warn "Received audio chunk for a non-existent session."]) :=
  rfl
